import Mathlib

/-!
# Verification of the satellite orbit simulation library

Shallow embedding of the orbital-propagation kernel (`SatelliteSimulator`
class, `OrbitUtils` helpers) of the repository.  JavaScript `number`
arithmetic is modelled by exact real numbers `ℝ`; where the distinction
between finite numbers and the IEEE special values `Infinity` / `NaN` is
itself the property under study, a dedicated type `JSNum` with IEEE-754
special-value propagation rules is used.
-/

namespace SatSim

noncomputable section

/-- JavaScript truthiness defaulting `x || d` applied to an optional numeric
field: an absent (`undefined`) field and the falsy number `0` both yield the
default `d`; any other number is kept. -/
def orDefault (x : Option ℝ) (d : ℝ) : ℝ :=
  match x with
  | none => d
  | some v => if v = 0 then d else v

/-- A 3-component Cartesian vector `{x, y, z}` of the source. -/
structure Vector3 where
  x : ℝ
  y : ℝ
  z : ℝ

/-- The satellite descriptor record (display-only fields `id`, `name`,
`status`, `tle` are omitted: the propagator never reads them).  The
family-specific numeric fields are optional in the source interface. -/
structure Satellite where
  altitude : ℝ
  inclination : ℝ
  velocity : ℝ
  orbitType : String
  eccentricity : Option ℝ
  argumentOfPeriapsis : Option ℝ
  rightAscensionOfAscendingNode : Option ℝ
  meanAnomaly : Option ℝ

/-- The `orbitalElements` record computed by `calculateOrbitalElements`. -/
structure OrbitalElements where
  semiMajorAxis : ℝ
  inclination : ℝ
  meanMotion : ℝ
  orbitalPeriod : ℝ
  eccentricity : ℝ
  argumentOfPeriapsis : ℝ
  rightAscensionOfAscendingNode : ℝ
  meanAnomaly : ℝ

/-- Earth's radius in km, the constant `earthRadius` of the source. -/
def earthRadius : ℝ := 6371

/-- Earth's gravitational parameter μ in km³/s², the constant `mu` of the
source. -/
def mu : ℝ := 3.986004418e5

/-- `calculateOrbitalElements`: derives the orbital elements from the
satellite descriptor.  The base record sets the four family-specific
elements to `0`; the `"LEO"` branch overrides eccentricity (default `0.01`
via `||`) and argument of periapsis, the `"Polar"` branch overrides RAAN and
initial mean anomaly (degrees converted to radians). -/
def calculateOrbitalElements (satellite : Satellite) : OrbitalElements :=
  let semiMajorAxis := satellite.altitude + earthRadius
  let inclinationRad := satellite.inclination * Real.pi / 180
  let orbitalPeriod := 2 * Real.pi * Real.sqrt (semiMajorAxis ^ 3 / mu)
  let meanMotion := 2 * Real.pi / orbitalPeriod
  let base : OrbitalElements :=
    { semiMajorAxis := semiMajorAxis
      inclination := inclinationRad
      meanMotion := meanMotion
      orbitalPeriod := orbitalPeriod
      eccentricity := 0
      argumentOfPeriapsis := 0
      rightAscensionOfAscendingNode := 0
      meanAnomaly := 0 }
  if satellite.orbitType = "LEO" then
    { base with
      eccentricity := orDefault satellite.eccentricity 0.01
      argumentOfPeriapsis := orDefault satellite.argumentOfPeriapsis 0 * Real.pi / 180 }
  else if satellite.orbitType = "Polar" then
    { base with
      rightAscensionOfAscendingNode :=
        orDefault satellite.rightAscensionOfAscendingNode 0 * Real.pi / 180
      meanAnomaly := orDefault satellite.meanAnomaly 0 * Real.pi / 180 }
  else base

/-- The mutable state of one `SatelliteSimulator` instance. -/
structure SatelliteSimulator where
  satellite : Satellite
  time : ℝ
  position : Vector3
  velocity : Vector3
  orbitalElements : OrbitalElements

/-- The `SatelliteSimulator` constructor / `createSatelliteSimulator`
factory: time `0`, zero position and velocity, elements computed from the
descriptor. -/
def createSatelliteSimulator (satellite : Satellite) : SatelliteSimulator :=
  { satellite := satellite
    time := 0
    position := ⟨0, 0, 0⟩
    velocity := ⟨0, 0, 0⟩
    orbitalElements := calculateOrbitalElements satellite }

/-- The Newton-Raphson loop of `solveKeplersEquation`, with explicit fuel
(the remaining loop iterations).  Returns the final eccentric-anomaly
estimate together with the number of update steps `E ← E − f/fʹ` performed;
the loop body computes `f(E) = E − e·sin E − M` and exits early as soon as
`|f(E)| < 1e-6`. -/
def solveKeplersLoop (meanAnomaly eccentricity : ℝ) : ℝ → ℕ → ℝ × ℕ
  | E, 0 => (E, 0)
  | E, Nat.succ n =>
    let f := E - eccentricity * Real.sin E - meanAnomaly
    let fPrime := 1 - eccentricity * Real.cos E
    if |f| < 1e-6 then (E, 0)
    else
      let rest := solveKeplersLoop meanAnomaly eccentricity (E - f / fPrime) n
      (rest.1, rest.2 + 1)

/-- `solveKeplersEquation(meanAnomaly, eccentricity, maxIterations)`: the
eccentric anomaly returned by the Newton-Raphson loop started at the initial
guess `E₀ = M`.  The source's default argument is `maxIterations = 10`. -/
def solveKeplersEquation (meanAnomaly eccentricity : ℝ) (maxIterations : ℕ) : ℝ :=
  (solveKeplersLoop meanAnomaly eccentricity meanAnomaly maxIterations).1

/-- The number of Newton-Raphson update iterations the solver actually
performed (10 exactly when the early-exit residual test never fired). -/
def solveKeplersIterations (meanAnomaly eccentricity : ℝ) (maxIterations : ℕ) : ℕ :=
  (solveKeplersLoop meanAnomaly eccentricity meanAnomaly maxIterations).2

/-- `Math.atan2(y, x)` on real arguments: the argument of the complex number
`x + y·i`, in `(-π, π]`, with `atan2(0, 0) = 0` exactly as in JavaScript. -/
def atan2 (y x : ℝ) : ℝ := Complex.arg (↑x + ↑y * Complex.I)

/-- The current mean anomaly computed by `calculatePosition`:
`meanAnomaly + meanMotion * this.time`. -/
def currentMeanAnomalyAt (el : OrbitalElements) (time : ℝ) : ℝ :=
  el.meanAnomaly + el.meanMotion * time

/-- The eccentric anomaly computed by `calculatePosition` at a given elapsed
time (solver called with the default bound of 10 iterations). -/
def eccentricAnomalyAt (el : OrbitalElements) (time : ℝ) : ℝ :=
  solveKeplersEquation (currentMeanAnomalyAt el time) el.eccentricity 10

/-- The true anomaly computed by `calculatePosition`:
`2·atan2(√(1+e)·sin(E/2), √(1−e)·cos(E/2))`. -/
def trueAnomalyAt (el : OrbitalElements) (time : ℝ) : ℝ :=
  let E := eccentricAnomalyAt el time
  2 * atan2 (Real.sqrt (1 + el.eccentricity) * Real.sin (E / 2))
      (Real.sqrt (1 - el.eccentricity) * Real.cos (E / 2))

/-- The position computed by `calculatePosition` at a given elapsed time:
orbital radius `a(1 − e·cos E)`, in-plane coordinates from the true anomaly,
then the rotation into Earth-centred inertial coordinates. -/
def positionAt (el : OrbitalElements) (time : ℝ) : Vector3 :=
  let eccentricAnomaly := eccentricAnomalyAt el time
  let trueAnomaly := trueAnomalyAt el time
  let radius := el.semiMajorAxis * (1 - el.eccentricity * Real.cos eccentricAnomaly)
  let xOrbital := radius * Real.cos trueAnomaly
  let yOrbital := radius * Real.sin trueAnomaly
  let cosRAAN := Real.cos el.rightAscensionOfAscendingNode
  let sinRAAN := Real.sin el.rightAscensionOfAscendingNode
  let cosInc := Real.cos el.inclination
  let sinInc := Real.sin el.inclination
  let cosArgP := Real.cos el.argumentOfPeriapsis
  let sinArgP := Real.sin el.argumentOfPeriapsis
  { x := xOrbital * (cosRAAN * cosArgP - sinRAAN * sinArgP * cosInc) -
      yOrbital * (cosRAAN * sinArgP + sinRAAN * cosArgP * cosInc)
    y := xOrbital * (sinRAAN * cosArgP + cosRAAN * sinArgP * cosInc) -
      yOrbital * (sinRAAN * sinArgP - cosRAAN * cosArgP * cosInc)
    z := xOrbital * sinArgP * sinInc + yOrbital * cosArgP * sinInc }

/-- `calculatePosition(timeStep)`: advances `this.time` by `timeStep` and
stores the freshly computed position; nothing else is written. -/
def calculatePosition (sim : SatelliteSimulator) (timeStep : ℝ) : SatelliteSimulator :=
  { sim with
    time := sim.time + timeStep
    position := positionAt sim.orbitalElements (sim.time + timeStep) }

/-- The Euclidean magnitude `Math.sqrt(x**2 + y**2 + z**2)` used by
`calculateVelocity` for the orbital radius `r`. -/
def norm3 (v : Vector3) : ℝ := Real.sqrt (v.x ^ 2 + v.y ^ 2 + v.z ^ 2)

/-- `calculateVelocityDirection()`: unit vector at angle
`atan2(y, x) + π/2` in the x-y plane, z-component `0`. -/
def calculateVelocityDirection (position : Vector3) : Vector3 :=
  let angle := atan2 position.y position.x + Real.pi / 2
  ⟨Real.cos angle, Real.sin angle, 0⟩

/-- The vis-viva speed `√(μ(2/r − 1/a))` computed by `calculateVelocity`. -/
def velocityMagnitudeAt (el : OrbitalElements) (position : Vector3) : ℝ :=
  Real.sqrt (mu * (2 / norm3 position - 1 / el.semiMajorAxis))

/-- `calculateVelocity()`: stores speed times direction as the new velocity;
nothing else is written. -/
def calculateVelocity (sim : SatelliteSimulator) : SatelliteSimulator :=
  let velocityMagnitude := velocityMagnitudeAt sim.orbitalElements sim.position
  let velocityDirection := calculateVelocityDirection sim.position
  { sim with
    velocity :=
      ⟨velocityMagnitude * velocityDirection.x,
        velocityMagnitude * velocityDirection.y,
        velocityMagnitude * velocityDirection.z⟩ }

/-- The snapshot record returned by `getOrbitalParameters`. -/
structure OrbitalParameters where
  orbitalPeriod : ℝ
  altitude : ℝ
  eccentricity : ℝ
  inclination : ℝ
  currentPosition : Vector3
  currentVelocity : Vector3
  simulationTime : ℝ

/-- `getOrbitalParameters()`: pure read of the current state (period in
hours, altitude above Earth, inclination back in degrees). -/
def getOrbitalParameters (sim : SatelliteSimulator) : OrbitalParameters :=
  { orbitalPeriod := sim.orbitalElements.orbitalPeriod / 3600
    altitude := sim.orbitalElements.semiMajorAxis - 6371
    eccentricity := sim.orbitalElements.eccentricity
    inclination := sim.orbitalElements.inclination * 180 / Real.pi
    currentPosition := sim.position
    currentVelocity := sim.velocity
    simulationTime := sim.time }

/-- `reset()`: zeroes time, position and velocity and recomputes the
elements from the currently stored descriptor. -/
def reset (sim : SatelliteSimulator) : SatelliteSimulator :=
  { sim with
    time := 0
    position := ⟨0, 0, 0⟩
    velocity := ⟨0, 0, 0⟩
    orbitalElements := calculateOrbitalElements sim.satellite }

/-- A partial satellite record as passed to `updateSatellite`.  `none`
means the key is absent from the update object; for the optional descriptor
fields, `some none` models a key explicitly present with value
`undefined` (JavaScript object spread copies such keys too). -/
structure SatelliteUpdate where
  altitude : Option ℝ
  inclination : Option ℝ
  velocity : Option ℝ
  orbitType : Option String
  eccentricity : Option (Option ℝ)
  argumentOfPeriapsis : Option (Option ℝ)
  rightAscensionOfAscendingNode : Option (Option ℝ)
  meanAnomaly : Option (Option ℝ)

/-- The shallow merge `{ ...this.satellite, ...newSatellite }`: every key
present in the update overrides the stored value, every absent key keeps
it. -/
def mergeSatellite (old : Satellite) (upd : SatelliteUpdate) : Satellite :=
  { altitude := upd.altitude.getD old.altitude
    inclination := upd.inclination.getD old.inclination
    velocity := upd.velocity.getD old.velocity
    orbitType := upd.orbitType.getD old.orbitType
    eccentricity := upd.eccentricity.getD old.eccentricity
    argumentOfPeriapsis := upd.argumentOfPeriapsis.getD old.argumentOfPeriapsis
    rightAscensionOfAscendingNode :=
      upd.rightAscensionOfAscendingNode.getD old.rightAscensionOfAscendingNode
    meanAnomaly := upd.meanAnomaly.getD old.meanAnomaly }

/-- `updateSatellite(newSatellite)`: shallow-merges the update into the
stored descriptor and recomputes the orbital elements; time, position and
velocity are not written. -/
def updateSatellite (sim : SatelliteSimulator) (upd : SatelliteUpdate) : SatelliteSimulator :=
  { sim with
    satellite := mergeSatellite sim.satellite upd
    orbitalElements := calculateOrbitalElements (mergeSatellite sim.satellite upd) }

namespace OrbitUtils

/-- `OrbitUtils.isStableOrbit(altitudeKm, eccentricity)`: altitude within
[160, 2000] km and eccentricity within [0, 1). -/
def isStableOrbit (altitudeKm eccentricity : ℝ) : Prop :=
  let minAltitude : ℝ := 160
  let maxAltitude : ℝ := 2000
  minAltitude ≤ altitudeKm ∧ altitudeKm ≤ maxAltitude ∧
    0 ≤ eccentricity ∧ eccentricity < 1

end OrbitUtils

/-- A JavaScript `number` where the finite / `Infinity` / `-Infinity` /
`NaN` distinction is tracked.  Finite payloads stay exact reals (rounding
and overflow of finite results are not modelled); the special values follow
the IEEE-754 / ECMAScript propagation rules.  Negative zero is identified
with zero. -/
inductive JSNum where
  | num (val : ℝ)
  | posInfty
  | negInfty
  | nan

namespace JSNum

/-- Whether a JavaScript number is finite (`Number.isFinite`). -/
def finite : JSNum → Bool
  | num _ => true
  | _ => false

/-- IEEE addition: `∞ + (-∞) = NaN`, infinities absorb finite values,
`NaN` propagates. -/
def add : JSNum → JSNum → JSNum
  | num a, num b => num (a + b)
  | num _, posInfty => posInfty
  | posInfty, num _ => posInfty
  | posInfty, posInfty => posInfty
  | num _, negInfty => negInfty
  | negInfty, num _ => negInfty
  | negInfty, negInfty => negInfty
  | _, _ => nan

/-- IEEE negation. -/
def neg : JSNum → JSNum
  | num a => num (-a)
  | posInfty => negInfty
  | negInfty => posInfty
  | nan => nan

/-- IEEE subtraction, as addition of the negation. -/
def sub (a b : JSNum) : JSNum := add a (neg b)

/-- IEEE multiplication: `∞ · 0 = NaN`, otherwise infinities keep the sign
rule, `NaN` propagates. -/
def mul : JSNum → JSNum → JSNum
  | num a, num b => num (a * b)
  | num a, posInfty => if a = 0 then nan else if 0 < a then posInfty else negInfty
  | posInfty, num b => if b = 0 then nan else if 0 < b then posInfty else negInfty
  | num a, negInfty => if a = 0 then nan else if 0 < a then negInfty else posInfty
  | negInfty, num b => if b = 0 then nan else if 0 < b then negInfty else posInfty
  | posInfty, posInfty => posInfty
  | posInfty, negInfty => negInfty
  | negInfty, posInfty => negInfty
  | negInfty, negInfty => posInfty
  | _, _ => nan

/-- IEEE division (divisor zero means the positive zero `+0`, the only zero
in this model): `x/0 = ±∞` for `x ≠ 0`, `0/0 = NaN`, `∞/∞ = NaN`, finite
over infinite is `0`, `NaN` propagates. -/
def div : JSNum → JSNum → JSNum
  | num a, num b =>
      if b = 0 then (if a = 0 then nan else if 0 < a then posInfty else negInfty)
      else num (a / b)
  | num _, posInfty => num 0
  | num _, negInfty => num 0
  | posInfty, num b => if 0 ≤ b then posInfty else negInfty
  | negInfty, num b => if 0 ≤ b then negInfty else posInfty
  | _, _ => nan

/-- `Math.sqrt`: `NaN` on negative or `NaN` or `-∞` input, `∞` on `∞`. -/
def sqrt : JSNum → JSNum
  | num a => if a < 0 then nan else num (Real.sqrt a)
  | posInfty => posInfty
  | _ => nan

/-- `Math.sin`: `NaN` on every non-finite input. -/
def sin : JSNum → JSNum
  | num a => num (Real.sin a)
  | _ => nan

/-- `Math.cos`: `NaN` on every non-finite input. -/
def cos : JSNum → JSNum
  | num a => num (Real.cos a)
  | _ => nan

/-- `Math.atan2` with the ECMAScript special-value cases (signed zeros
identified with zero). -/
def jsAtan2 : JSNum → JSNum → JSNum
  | num y, num x => num (atan2 y x)
  | num _, posInfty => num 0
  | num y, negInfty => num (if 0 ≤ y then Real.pi else -Real.pi)
  | posInfty, num _ => num (Real.pi / 2)
  | negInfty, num _ => num (-(Real.pi / 2))
  | posInfty, posInfty => num (Real.pi / 4)
  | posInfty, negInfty => num (3 * Real.pi / 4)
  | negInfty, posInfty => num (-(Real.pi / 4))
  | negInfty, negInfty => num (-(3 * Real.pi / 4))
  | _, _ => nan

end JSNum

/-- A 3-vector of JavaScript numbers. -/
structure JSVector3 where
  x : JSNum
  y : JSNum
  z : JSNum

/-- Whether all three components are finite numbers. -/
def JSVector3.finite (v : JSVector3) : Bool :=
  v.x.finite && v.y.finite && v.z.finite

/-- `calculateVelocity()` re-expressed over ECMAScript number semantics
(same formulas as `calculateVelocity` / `calculateVelocityDirection` above,
line for line): `r = √(x² + y² + z²)`, vis-viva speed `√(μ(2/r − 1/a))`,
direction `(cos θ, sin θ, 0)` with `θ = atan2(y, x) + π/2`, velocity
`speed · direction`.  Used to study the unguarded division by `r`. -/
def calculateVelocityJS (semiMajorAxis : JSNum) (position : JSVector3) : JSVector3 :=
  let r := JSNum.sqrt
    (((position.x.mul position.x).add (position.y.mul position.y)).add
      (position.z.mul position.z))
  let velocityMagnitude := JSNum.sqrt
    ((JSNum.num mu).mul (((JSNum.num 2).div r).sub ((JSNum.num 1).div semiMajorAxis)))
  let angle := (JSNum.jsAtan2 position.y position.x).add (JSNum.num (Real.pi / 2))
  let velocityDirection : JSVector3 := ⟨angle.cos, angle.sin, JSNum.num 0⟩
  ⟨velocityMagnitude.mul velocityDirection.x,
    velocityMagnitude.mul velocityDirection.y,
    velocityMagnitude.mul velocityDirection.z⟩

/-- A polar-orbit satellite descriptor with every optional field absent. -/
def exampleSatPolar : Satellite :=
  { altitude := 400
    inclination := 90
    velocity := 7.6
    orbitType := "Polar"
    eccentricity := none
    argumentOfPeriapsis := none
    rightAscensionOfAscendingNode := none
    meanAnomaly := none }

/-- A polar-orbit satellite descriptor that (incongruously) supplies the
LEO-only fields. -/
def exampleSatPolarFull : Satellite :=
  { altitude := 500
    inclination := 98
    velocity := 7.5
    orbitType := "Polar"
    eccentricity := some 0.3
    argumentOfPeriapsis := some 45
    rightAscensionOfAscendingNode := some 30
    meanAnomaly := some 10 }

/-- A LEO satellite descriptor with no eccentricity set that
(incongruously) supplies the polar-only fields. -/
def exampleSatLEO : Satellite :=
  { altitude := 408
    inclination := 51.6
    velocity := 7.66
    orbitType := "LEO"
    eccentricity := none
    argumentOfPeriapsis := none
    rightAscensionOfAscendingNode := some 30
    meanAnomaly := some 10 }

/-- Invariant of the Newton-Raphson loop: either the returned estimate
meets the residual tolerance, or every unit of fuel was spent on an update
step. -/
theorem solveKeplersLoop_spec (meanAnomaly eccentricity : ℝ) : ∀ (fuel : ℕ) (E : ℝ),
    |(solveKeplersLoop meanAnomaly eccentricity E fuel).1 -
        eccentricity * Real.sin ((solveKeplersLoop meanAnomaly eccentricity E fuel).1) -
        meanAnomaly| < 1e-6 ∨
      (solveKeplersLoop meanAnomaly eccentricity E fuel).2 = fuel := by
  intro fuel
  induction fuel with
  | zero => exact fun E => Or.inr rfl
  | succ n ih =>
    intro E
    by_cases h : |E - eccentricity * Real.sin E - meanAnomaly| < 1e-6
    · left
      simp [solveKeplersLoop, h]
    · rcases ih (E - (E - eccentricity * Real.sin E - meanAnomaly) /
          (1 - eccentricity * Real.cos E)) with h1 | h2
      · left
        simpa [solveKeplersLoop, h] using h1
      · right
        simp [solveKeplersLoop, h, h2]

/-- Claim C1: for every eccentricity in [0, 1) and every mean anomaly, the
Newton-Raphson solver (which terminates by construction, its loop being
bounded) returns an eccentric anomaly whose Kepler residual is below 1e-6,
or else all 10 loop iterations were executed; no failure is signalled. -/
theorem solveKepler_bounded_effort (meanAnomaly eccentricity : ℝ)
    (h0 : 0 ≤ eccentricity) (h1 : eccentricity < 1) :
    |solveKeplersEquation meanAnomaly eccentricity 10 -
        eccentricity * Real.sin (solveKeplersEquation meanAnomaly eccentricity 10) -
        meanAnomaly| < 1e-6 ∨
      solveKeplersIterations meanAnomaly eccentricity 10 = 10 :=
  solveKeplersLoop_spec meanAnomaly eccentricity 10 meanAnomaly

/-- Witness for claim C1 at the concrete input M = 0, e = 0. -/
theorem solveKepler_bounded_effort_witness :
    (0 : ℝ) ≤ 0 ∧ (0 : ℝ) < 1 ∧
      (|solveKeplersEquation 0 0 10 - 0 * Real.sin (solveKeplersEquation 0 0 10) - 0| < 1e-6 ∨
        solveKeplersIterations 0 0 10 = 10) :=
  ⟨le_refl 0, by norm_num, solveKepler_bounded_effort 0 0 (le_refl 0) (by norm_num)⟩

/-- Claim C6: `isStableOrbit` holds exactly when the altitude lies in
[160, 2000] km and the eccentricity in [0, 1); in particular it holds at
(400, 0.01) and fails at (50, 0.01) and at (400, 1.0). -/
theorem isStableOrbit_spec :
    (∀ altitudeKm eccentricity : ℝ,
        OrbitUtils.isStableOrbit altitudeKm eccentricity ↔
          160 ≤ altitudeKm ∧ altitudeKm ≤ 2000 ∧ 0 ≤ eccentricity ∧ eccentricity < 1) ∧
    OrbitUtils.isStableOrbit 400 0.01 ∧
    ¬ OrbitUtils.isStableOrbit 50 0.01 ∧
    ¬ OrbitUtils.isStableOrbit 400 1 := by
  refine ⟨fun a e => Iff.rfl, ?_, ?_, ?_⟩ <;> norm_num [OrbitUtils.isStableOrbit]

/-- Claim C7: `updateSatellite` shallow-merges the update into the stored
descriptor and recomputes the orbital elements, while leaving elapsed time,
position and velocity untouched. -/
theorem updateSatellite_frame (sim : SatelliteSimulator) (upd : SatelliteUpdate) :
    (updateSatellite sim upd).time = sim.time ∧
    (updateSatellite sim upd).position = sim.position ∧
    (updateSatellite sim upd).velocity = sim.velocity ∧
    (updateSatellite sim upd).satellite = mergeSatellite sim.satellite upd ∧
    (updateSatellite sim upd).orbitalElements =
      calculateOrbitalElements (mergeSatellite sim.satellite upd) :=
  ⟨rfl, rfl, rfl, rfl, rfl⟩

/-- Claim C9: `calculatePosition` writes only the elapsed time and the
position; the stored velocity, orbital elements and descriptor are
unchanged, so `getOrbitalParameters` still reports the pre-step velocity. -/
theorem calculatePosition_frame (sim : SatelliteSimulator) (deltaSeconds : ℝ) :
    (calculatePosition sim deltaSeconds).time = sim.time + deltaSeconds ∧
    (calculatePosition sim deltaSeconds).position =
      positionAt sim.orbitalElements (sim.time + deltaSeconds) ∧
    (calculatePosition sim deltaSeconds).velocity = sim.velocity ∧
    (calculatePosition sim deltaSeconds).orbitalElements = sim.orbitalElements ∧
    (calculatePosition sim deltaSeconds).satellite = sim.satellite ∧
    (getOrbitalParameters (calculatePosition sim deltaSeconds)).currentVelocity =
      sim.velocity :=
  ⟨rfl, rfl, rfl, rfl, rfl, rfl⟩

/-- Counterexample to claim C4 as stated: the polar descriptor has no
eccentricity set, yet its computed orbital eccentricity is not 0.01 (the
default is only applied inside the `"LEO"` branch). -/
theorem unsetEccentricityDefault_counterexample :
    exampleSatPolar.eccentricity = none ∧
    (calculateOrbitalElements exampleSatPolar).eccentricity ≠ 0.01 := by
  have h0 : (calculateOrbitalElements exampleSatPolar).eccentricity = 0 := by
    simp [calculateOrbitalElements, exampleSatPolar]
  exact ⟨rfl, by rw [h0]; norm_num⟩

/-- Claim C4, amended: a descriptor with the eccentricity field unset gets
orbital eccentricity 0.01 when its orbit-family tag is "LEO", and 0 for
every other tag (the default applies only in the LEO branch). -/
theorem unsetEccentricityDefault_amended (satA satB : Satellite)
    (hA : satA.orbitType = "LEO") (hAe : satA.eccentricity = none)
    (hB : satB.orbitType ≠ "LEO") (hBe : satB.eccentricity = none) :
    (calculateOrbitalElements satA).eccentricity = 0.01 ∧
    (calculateOrbitalElements satB).eccentricity = 0 := by
  constructor
  · simp [calculateOrbitalElements, hA, hAe, orDefault]
  · by_cases hP : satB.orbitType = "Polar" <;>
      simp [calculateOrbitalElements, hB, hP]

/-- Witness for the amended claim C4 at two concrete descriptors. -/
theorem unsetEccentricityDefault_amended_witness :
    exampleSatLEO.orbitType = "LEO" ∧ exampleSatLEO.eccentricity = none ∧
    exampleSatPolar.orbitType ≠ "LEO" ∧ exampleSatPolar.eccentricity = none ∧
    (calculateOrbitalElements exampleSatLEO).eccentricity = 0.01 ∧
    (calculateOrbitalElements exampleSatPolar).eccentricity = 0 := by
  have hO : exampleSatPolar.orbitType ≠ "LEO" := by decide
  obtain ⟨h1, h2⟩ := unsetEccentricityDefault_amended exampleSatLEO exampleSatPolar rfl rfl hO rfl
  exact ⟨rfl, rfl, hO, rfl, h1, h2⟩

/-- Claim C10: the constructor ignores the other family's fields: a
"Polar" descriptor always yields eccentricity 0 and argument of periapsis
0, and a "LEO" descriptor always yields RAAN 0 and initial mean anomaly 0,
even when the descriptor supplies those fields. -/
theorem orbitFamily_ignores_other_family (satP satL : Satellite)
    (hP : satP.orbitType = "Polar") (hL : satL.orbitType = "LEO") :
    (calculateOrbitalElements satP).eccentricity = 0 ∧
    (calculateOrbitalElements satP).argumentOfPeriapsis = 0 ∧
    (calculateOrbitalElements satL).rightAscensionOfAscendingNode = 0 ∧
    (calculateOrbitalElements satL).meanAnomaly = 0 := by
  refine ⟨?_, ?_, ?_, ?_⟩ <;> simp [calculateOrbitalElements, hP, hL]

/-- Witness for claim C10 at concrete descriptors that do supply the other
family's fields. -/
theorem orbitFamily_ignores_other_family_witness :
    exampleSatPolarFull.orbitType = "Polar" ∧ exampleSatLEO.orbitType = "LEO" ∧
    ((calculateOrbitalElements exampleSatPolarFull).eccentricity = 0 ∧
      (calculateOrbitalElements exampleSatPolarFull).argumentOfPeriapsis = 0 ∧
      (calculateOrbitalElements exampleSatLEO).rightAscensionOfAscendingNode = 0 ∧
      (calculateOrbitalElements exampleSatLEO).meanAnomaly = 0) :=
  ⟨rfl, rfl, orbitFamily_ignores_other_family exampleSatPolarFull exampleSatLEO rfl rfl⟩

/-- When the current estimate already meets the residual tolerance, the
Newton-Raphson loop stops at once and returns it with zero updates. -/
theorem solveKeplersLoop_converged (meanAnomaly eccentricity E : ℝ) (fuel : ℕ)
    (h : |E - eccentricity * Real.sin E - meanAnomaly| < 1e-6) :
    solveKeplersLoop meanAnomaly eccentricity E fuel = (E, 0) := by
  cases fuel with
  | zero => rfl
  | succ n => simp [solveKeplersLoop, h]

/-- At eccentricity 0 the Newton-Raphson solver returns its initial guess:
the first residual is `M − 0·sin M − M = 0`, below the tolerance. -/
theorem solveKepler_zero_ecc (meanAnomaly : ℝ) :
    solveKeplersEquation meanAnomaly 0 10 = meanAnomaly := by
  rw [solveKeplersEquation, solveKeplersLoop_converged _ _ _ _ (by norm_num)]

/-- `atan2(sin θ, cos θ)` recovers `θ` up to an integer multiple of 2π. -/
theorem atan2_sin_cos_mod (θ : ℝ) :
    ∃ k : ℤ, atan2 (Real.sin θ) (Real.cos θ) = θ + 2 * Real.pi * k := by
  refine ⟨⌊(Real.pi - θ) / (2 * Real.pi)⌋, ?_⟩
  have h := Complex.arg_cos_add_sin_mul_I_sub θ
  have h2 : atan2 (Real.sin θ) (Real.cos θ) =
      Complex.arg (Complex.cos θ + Complex.sin θ * Complex.I) := by
    rw [atan2, Complex.ofReal_cos, Complex.ofReal_sin]
  rw [h2]
  linarith [h]

/-- Counterexample to claim C2 as stated: `exampleSatPolarFull` is a
circular orbit (eccentricity 0) whose descriptor sets the initial mean
anomaly to 10°, so after `step(1)` the current mean anomaly is
`10·π/180 + meanMotion·1`, which differs from `meanMotion·1` by `π/18` —
not by any integer multiple of 2π. -/
theorem circular_orbit_anomalies_counterexample :
    (calculateOrbitalElements exampleSatPolarFull).eccentricity = 0 ∧
    ¬ ∃ k : ℤ, currentMeanAnomalyAt (calculateOrbitalElements exampleSatPolarFull) 1 =
        (calculateOrbitalElements exampleSatPolarFull).meanMotion * 1 + 2 * Real.pi * k := by
  have he : (calculateOrbitalElements exampleSatPolarFull).eccentricity = 0 := by
    simp [calculateOrbitalElements, exampleSatPolarFull]
  have hM : (calculateOrbitalElements exampleSatPolarFull).meanAnomaly =
      10 * Real.pi / 180 := by
    simp [calculateOrbitalElements, exampleSatPolarFull, orDefault]
  refine ⟨he, ?_⟩
  rintro ⟨k, hk⟩
  rw [currentMeanAnomalyAt, hM] at hk
  have hpi : Real.pi ≠ 0 := Real.pi_ne_zero
  have h360 : Real.pi * ((k : ℝ) * 360) = Real.pi * 10 := by linear_combination (-180) * hk
  have hk36 : (k : ℝ) = 1 / 36 := by
    have h10 := mul_left_cancel₀ hpi h360
    linarith
  rcases le_or_lt k 0 with hk0 | hk0
  · have hle : (k : ℝ) ≤ 0 := by exact_mod_cast hk0
    rw [hk36] at hle
    norm_num at hle
  · have hge : (1 : ℝ) ≤ (k : ℝ) := by exact_mod_cast hk0
    rw [hk36] at hge
    norm_num at hge

/-- Claim C2, amended: at eccentricity 0 the solver returns the mean
anomaly exactly with zero residual; after `step(t)` on a circular orbit the
eccentric anomaly equals the current mean anomaly, which is
`M₀ + meanMotion · t` with `M₀` the initial mean anomaly element (so it is
`meanMotion · t` only when `M₀ = 0`), and the true anomaly equals the
current mean anomaly modulo 2π. -/
theorem circular_orbit_anomalies (M t : ℝ) (sat : Satellite)
    (he : (calculateOrbitalElements sat).eccentricity = 0) :
    solveKeplersEquation M 0 10 = M ∧
    solveKeplersEquation M 0 10 - 0 * Real.sin (solveKeplersEquation M 0 10) - M = 0 ∧
    (calculatePosition (createSatelliteSimulator sat) t).time = t ∧
    currentMeanAnomalyAt (calculateOrbitalElements sat) t =
      (calculateOrbitalElements sat).meanAnomaly +
        (calculateOrbitalElements sat).meanMotion * t ∧
    eccentricAnomalyAt (calculateOrbitalElements sat) t =
      currentMeanAnomalyAt (calculateOrbitalElements sat) t ∧
    ∃ k : ℤ, trueAnomalyAt (calculateOrbitalElements sat) t =
      currentMeanAnomalyAt (calculateOrbitalElements sat) t + 2 * Real.pi * k := by
  have hE : eccentricAnomalyAt (calculateOrbitalElements sat) t =
      currentMeanAnomalyAt (calculateOrbitalElements sat) t := by
    rw [eccentricAnomalyAt, he, solveKepler_zero_ecc]
  refine ⟨solveKepler_zero_ecc M, by rw [solveKepler_zero_ecc M]; ring, ?_, rfl, hE, ?_⟩
  · show (createSatelliteSimulator sat).time + t = t
    show (0 : ℝ) + t = t
    rw [zero_add]
  · obtain ⟨k0, hk⟩ :=
      atan2_sin_cos_mod (currentMeanAnomalyAt (calculateOrbitalElements sat) t / 2)
    refine ⟨2 * k0, ?_⟩
    rw [trueAnomalyAt]
    rw [he, hE]
    norm_num [Real.sqrt_one]
    rw [hk]
    ring

/-- Witness for the amended claim C2 at the circular descriptor
`exampleSatPolar`, M = 0, t = 1. -/
theorem circular_orbit_anomalies_witness :
    (calculateOrbitalElements exampleSatPolar).eccentricity = 0 ∧
    (solveKeplersEquation 0 0 10 = 0 ∧
      solveKeplersEquation 0 0 10 - 0 * Real.sin (solveKeplersEquation 0 0 10) - 0 = 0 ∧
      (calculatePosition (createSatelliteSimulator exampleSatPolar) 1).time = 1 ∧
      currentMeanAnomalyAt (calculateOrbitalElements exampleSatPolar) 1 =
        (calculateOrbitalElements exampleSatPolar).meanAnomaly +
          (calculateOrbitalElements exampleSatPolar).meanMotion * 1 ∧
      eccentricAnomalyAt (calculateOrbitalElements exampleSatPolar) 1 =
        currentMeanAnomalyAt (calculateOrbitalElements exampleSatPolar) 1 ∧
      ∃ k : ℤ, trueAnomalyAt (calculateOrbitalElements exampleSatPolar) 1 =
        currentMeanAnomalyAt (calculateOrbitalElements exampleSatPolar) 1 +
          2 * Real.pi * k) := by
  have he : (calculateOrbitalElements exampleSatPolar).eccentricity = 0 := by
    simp [calculateOrbitalElements, exampleSatPolar]
  exact ⟨he, circular_orbit_anomalies 0 1 exampleSatPolar he⟩

/-- Iterating `step(1)` n times adds n seconds to the clock, never touches
the orbital elements, and (once at least one step has run) leaves the
position that `positionAt` computes from the final clock value. -/
theorem calculatePosition_iterate (sim : SatelliteSimulator) : ∀ n : ℕ,
    ((fun st => calculatePosition st 1)^[n] sim).time = sim.time + n ∧
    ((fun st => calculatePosition st 1)^[n] sim).orbitalElements = sim.orbitalElements ∧
    (0 < n → ((fun st => calculatePosition st 1)^[n] sim).position =
      positionAt sim.orbitalElements (sim.time + n)) := by
  intro n
  induction n with
  | zero => exact ⟨by simp, rfl, fun h => absurd h (lt_irrefl 0)⟩
  | succ n ih =>
    obtain ⟨ht, he, _⟩ := ih
    rw [Function.iterate_succ_apply']
    refine ⟨?_, ?_, fun _ => ?_⟩
    · show ((fun st => calculatePosition st 1)^[n] sim).time + 1 = sim.time + (n + 1 : ℕ)
      rw [ht]
      push_cast
      ring
    · exact he
    · show positionAt ((fun st => calculatePosition st 1)^[n] sim).orbitalElements
          (((fun st => calculatePosition st 1)^[n] sim).time + 1) =
        positionAt sim.orbitalElements (sim.time + (n + 1 : ℕ))
      rw [he, ht]
      congr 1
      push_cast
      ring

/-- Claim C3: on a circular orbit, sixty `step(1)` calls from a fresh state
give the same position as one `step(60)` call, and the elapsed time
accumulates additively to the same 60 seconds. -/
theorem step_sixty_additivity (sat : Satellite)
    (hcirc : (calculateOrbitalElements sat).eccentricity = 0) :
    ((fun st => calculatePosition st 1)^[60] (createSatelliteSimulator sat)).position =
      (calculatePosition (createSatelliteSimulator sat) 60).position ∧
    ((fun st => calculatePosition st 1)^[60] (createSatelliteSimulator sat)).time =
      (calculatePosition (createSatelliteSimulator sat) 60).time := by
  obtain ⟨ht, _, hp⟩ := calculatePosition_iterate (createSatelliteSimulator sat) 60
  constructor
  · rw [hp (by norm_num)]
    show positionAt (calculateOrbitalElements sat) ((0 : ℝ) + (60 : ℕ)) =
      positionAt (calculateOrbitalElements sat) ((0 : ℝ) + 60)
    norm_num
  · rw [ht]
    show (0 : ℝ) + (60 : ℕ) = (0 : ℝ) + 60
    norm_num

/-- Witness for claim C3 at the circular descriptor `exampleSatPolar`. -/
theorem step_sixty_additivity_witness :
    (calculateOrbitalElements exampleSatPolar).eccentricity = 0 ∧
    (((fun st => calculatePosition st 1)^[60]
          (createSatelliteSimulator exampleSatPolar)).position =
        (calculatePosition (createSatelliteSimulator exampleSatPolar) 60).position ∧
      ((fun st => calculatePosition st 1)^[60]
          (createSatelliteSimulator exampleSatPolar)).time =
        (calculatePosition (createSatelliteSimulator exampleSatPolar) 60).time) := by
  have hcirc : (calculateOrbitalElements exampleSatPolar).eccentricity = 0 := by
    simp [calculateOrbitalElements, exampleSatPolar]
  exact ⟨hcirc, step_sixty_additivity exampleSatPolar hcirc⟩

/-- Claim C5: the velocity stored by `calculateVelocity` has Euclidean
magnitude `√(μ(2/r − 1/a))` with `r` the magnitude of the current position,
zero z-component, and its x-y part is perpendicular to the x-y part of the
position. -/
theorem computeVelocity_visViva (sim : SatelliteSimulator)
    (hpos : sim.position ≠ (⟨0, 0, 0⟩ : Vector3)) :
    norm3 (calculateVelocity sim).velocity =
      Real.sqrt (mu * (2 / norm3 sim.position - 1 / sim.orbitalElements.semiMajorAxis)) ∧
    (calculateVelocity sim).velocity.z = 0 ∧
    (calculateVelocity sim).velocity.x * sim.position.x +
      (calculateVelocity sim).velocity.y * sim.position.y = 0 := by
  have hvx : (calculateVelocity sim).velocity.x =
      velocityMagnitudeAt sim.orbitalElements sim.position *
        Real.cos (atan2 sim.position.y sim.position.x + Real.pi / 2) := rfl
  have hvy : (calculateVelocity sim).velocity.y =
      velocityMagnitudeAt sim.orbitalElements sim.position *
        Real.sin (atan2 sim.position.y sim.position.x + Real.pi / 2) := rfl
  have hvz : (calculateVelocity sim).velocity.z =
      velocityMagnitudeAt sim.orbitalElements sim.position * 0 := rfl
  refine ⟨?_, ?_, ?_⟩
  · rw [norm3, hvx, hvy, hvz]
    have hsq : (velocityMagnitudeAt sim.orbitalElements sim.position *
          Real.cos (atan2 sim.position.y sim.position.x + Real.pi / 2)) ^ 2 +
        (velocityMagnitudeAt sim.orbitalElements sim.position *
          Real.sin (atan2 sim.position.y sim.position.x + Real.pi / 2)) ^ 2 +
        (velocityMagnitudeAt sim.orbitalElements sim.position * 0) ^ 2 =
        velocityMagnitudeAt sim.orbitalElements sim.position ^ 2 := by
      have hpyth := Real.sin_sq_add_cos_sq
        (atan2 sim.position.y sim.position.x + Real.pi / 2)
      nlinarith [hpyth]
    have hnn : 0 ≤ velocityMagnitudeAt sim.orbitalElements sim.position := by
      rw [velocityMagnitudeAt]
      exact Real.sqrt_nonneg _
    rw [hsq, Real.sqrt_sq hnn]
    rfl
  · rw [hvz, mul_zero]
  · rw [hvx, hvy, Real.cos_add_pi_div_two, Real.sin_add_pi_div_two]
    set px := sim.position.x with hpx
    set py := sim.position.y with hpy
    have hsin : Real.sin (atan2 py px) =
        py / Complex.abs (↑px + ↑py * Complex.I) := by
      rw [atan2, Complex.sin_arg]
      norm_num
    by_cases hz : (↑px + ↑py * Complex.I : ℂ) = 0
    · have hx0 : px = 0 := by
        have := congrArg Complex.re hz
        simpa using this
      have hy0 : py = 0 := by
        have := congrArg Complex.im hz
        simpa using this
      rw [hx0, hy0]
      ring
    · have hcos : Real.cos (atan2 py px) =
          px / Complex.abs (↑px + ↑py * Complex.I) := by
        rw [atan2, Complex.cos_arg hz]
        norm_num
      rw [hsin, hcos]
      ring

/-- Witness for claim C5 at a concrete state with position (7000, 0, 0). -/
theorem computeVelocity_visViva_witness :
    ({ createSatelliteSimulator exampleSatPolar with
        position := (⟨7000, 0, 0⟩ : Vector3) } : SatelliteSimulator).position ≠
      (⟨0, 0, 0⟩ : Vector3) ∧
    (norm3 (calculateVelocity
          { createSatelliteSimulator exampleSatPolar with
            position := (⟨7000, 0, 0⟩ : Vector3) }).velocity =
        Real.sqrt (mu * (2 / norm3 ({ createSatelliteSimulator exampleSatPolar with
              position := (⟨7000, 0, 0⟩ : Vector3) } : SatelliteSimulator).position -
            1 / ({ createSatelliteSimulator exampleSatPolar with
              position := (⟨7000, 0, 0⟩ : Vector3) } :
                SatelliteSimulator).orbitalElements.semiMajorAxis)) ∧
      (calculateVelocity
          { createSatelliteSimulator exampleSatPolar with
            position := (⟨7000, 0, 0⟩ : Vector3) }).velocity.z = 0 ∧
      (calculateVelocity
            { createSatelliteSimulator exampleSatPolar with
              position := (⟨7000, 0, 0⟩ : Vector3) }).velocity.x *
          ({ createSatelliteSimulator exampleSatPolar with
            position := (⟨7000, 0, 0⟩ : Vector3) } : SatelliteSimulator).position.x +
        (calculateVelocity
              { createSatelliteSimulator exampleSatPolar with
                position := (⟨7000, 0, 0⟩ : Vector3) }).velocity.y *
          ({ createSatelliteSimulator exampleSatPolar with
            position := (⟨7000, 0, 0⟩ : Vector3) } : SatelliteSimulator).position.y = 0) := by
  have hne : ({ createSatelliteSimulator exampleSatPolar with
      position := (⟨7000, 0, 0⟩ : Vector3) } : SatelliteSimulator).position ≠
      (⟨0, 0, 0⟩ : Vector3) := by
    show (⟨7000, 0, 0⟩ : Vector3) ≠ (⟨0, 0, 0⟩ : Vector3)
    intro h
    have := congrArg Vector3.x h
    norm_num at this
  exact ⟨hne, computeVelocity_visViva _ hne⟩

/-- Claim C8: a freshly constructed propagator has the zero position, so
`calculateVelocity` computes `r = 0` and divides by it unguarded; under
ECMAScript number semantics the resulting velocity vector is not finite
(its y-component is `Infinity` or `NaN`), and in particular it is not the
zero vector that an un-stepped state is documented to report. -/
theorem fresh_velocity_not_finite (sat : Satellite) :
    (createSatelliteSimulator sat).position = (⟨0, 0, 0⟩ : Vector3) ∧
    norm3 (createSatelliteSimulator sat).position = 0 ∧
    (calculateVelocityJS
        (JSNum.num (createSatelliteSimulator sat).orbitalElements.semiMajorAxis)
        ⟨JSNum.num 0, JSNum.num 0, JSNum.num 0⟩).finite = false ∧
    calculateVelocityJS
        (JSNum.num (createSatelliteSimulator sat).orbitalElements.semiMajorAxis)
        ⟨JSNum.num 0, JSNum.num 0, JSNum.num 0⟩ ≠
      (⟨JSNum.num 0, JSNum.num 0, JSNum.num 0⟩ : JSVector3) := by
  set a := (createSatelliteSimulator sat).orbitalElements.semiMajorAxis with ha
  have hy : (calculateVelocityJS (JSNum.num a)
        ⟨JSNum.num 0, JSNum.num 0, JSNum.num 0⟩).y = JSNum.posInfty ∨
      (calculateVelocityJS (JSNum.num a)
        ⟨JSNum.num 0, JSNum.num 0, JSNum.num 0⟩).y = JSNum.nan := by
    by_cases h0 : a = 0
    · right
      norm_num [calculateVelocityJS, JSNum.mul, JSNum.add, JSNum.sub, JSNum.neg,
        JSNum.div, JSNum.sqrt, JSNum.sin, JSNum.cos, JSNum.jsAtan2, atan2, h0, mu,
        Real.sqrt_zero, Real.sin_pi_div_two, Real.cos_pi_div_two]
    · left
      norm_num [calculateVelocityJS, JSNum.mul, JSNum.add, JSNum.sub, JSNum.neg,
        JSNum.div, JSNum.sqrt, JSNum.sin, JSNum.cos, JSNum.jsAtan2, atan2, h0, mu,
        Real.sqrt_zero, Real.sin_pi_div_two, Real.cos_pi_div_two]
  refine ⟨rfl, ?_, ?_, ?_⟩
  · show norm3 (⟨0, 0, 0⟩ : Vector3) = 0
    norm_num [norm3]
  · rcases hy with hy | hy <;> simp [JSVector3.finite, hy, JSNum.finite]
  · intro h
    have hcomp := congrArg JSVector3.y h
    rcases hy with hy | hy <;> rw [hy] at hcomp <;> exact JSNum.noConfusion hcomp

end

end SatSim
